import Mathlib

/-
Shallow embedding of the House-Price-Prediction repository (src/api.py and
src/app.py).  All Python floats are modelled as exact rationals (ℚ): every
coefficient in the source is a short decimal literal, and every claim checked
here is robust to the (sub-cent) difference between binary floating point and
exact rational arithmetic.  Python's `round(x, 2)` is modelled by `round2`
below; the two differ only on exact half-cent ties, which no value in this
development hits.
-/

/-- Request schema of the API, from the pydantic model `HouseFeatures`
(api.py lines 35-52).  All numeric fields are Python ints (ℤ); `kitchen_qual`
and `neighborhood` are free-form strings with defaults handled at ingestion. -/
structure HouseFeatures where
  overall_quality : ℤ
  overall_condition : ℤ
  year_built : ℤ
  year_remod : ℤ
  lot_area : ℤ
  gr_liv_area : ℤ
  total_bsmt_sf : ℤ
  first_flr_sf : ℤ
  second_flr_sf : ℤ
  bedrooms : ℤ
  full_bath : ℤ
  half_bath : ℤ
  kitchen_qual : String
  garage_cars : ℤ
  garage_area : ℤ
  fireplaces : ℤ
  neighborhood : String

/-- Validity of a request, from the pydantic `Field(ge=..., le=...)` bounds in
api.py lines 36-51.  Validation happens once at ingestion; the predictor never
re-checks these. -/
def HouseFeatures.Valid (f : HouseFeatures) : Prop :=
  1 ≤ f.overall_quality ∧ f.overall_quality ≤ 10 ∧
  1 ≤ f.overall_condition ∧ f.overall_condition ≤ 10 ∧
  1800 ≤ f.year_built ∧ f.year_built ≤ 2025 ∧
  1800 ≤ f.year_remod ∧ f.year_remod ≤ 2025 ∧
  0 ≤ f.lot_area ∧ 0 ≤ f.gr_liv_area ∧ 0 ≤ f.total_bsmt_sf ∧
  0 ≤ f.first_flr_sf ∧ 0 ≤ f.second_flr_sf ∧
  0 ≤ f.bedrooms ∧ f.bedrooms ≤ 10 ∧
  0 ≤ f.full_bath ∧ f.full_bath ≤ 5 ∧
  0 ≤ f.half_bath ∧ f.half_bath ≤ 3 ∧
  0 ≤ f.garage_cars ∧ f.garage_cars ≤ 5 ∧
  0 ≤ f.garage_area ∧
  0 ≤ f.fireplaces ∧ f.fireplaces ≤ 4

instance (f : HouseFeatures) : Decidable f.Valid := by
  unfold HouseFeatures.Valid
  infer_instance

/-- The full feature dictionary assembled by the front end (app.py lines
585-607).  It carries four keys the API schema does not declare
(`garage_type`, `pool_area`, `bldg_type`, `house_style`); pydantic ignores
unknown keys at ingestion, which `toHouseFeatures` models. -/
structure FrontendRecord where
  overall_quality : ℤ
  overall_condition : ℤ
  year_built : ℤ
  year_remod : ℤ
  lot_area : ℤ
  gr_liv_area : ℤ
  total_bsmt_sf : ℤ
  first_flr_sf : ℤ
  second_flr_sf : ℤ
  bedrooms : ℤ
  full_bath : ℤ
  half_bath : ℤ
  kitchen_qual : String
  garage_cars : ℤ
  garage_area : ℤ
  garage_type : String
  fireplaces : ℤ
  pool_area : ℤ
  neighborhood : String
  bldg_type : String
  house_style : String

/-- Ingestion of a front-end request by the API: pydantic keeps exactly the
fields declared on `HouseFeatures` and silently discards the rest (in
particular `pool_area`). -/
def FrontendRecord.toHouseFeatures (r : FrontendRecord) : HouseFeatures :=
  { overall_quality := r.overall_quality
    overall_condition := r.overall_condition
    year_built := r.year_built
    year_remod := r.year_remod
    lot_area := r.lot_area
    gr_liv_area := r.gr_liv_area
    total_bsmt_sf := r.total_bsmt_sf
    first_flr_sf := r.first_flr_sf
    second_flr_sf := r.second_flr_sf
    bedrooms := r.bedrooms
    full_bath := r.full_bath
    half_bath := r.half_bath
    kitchen_qual := r.kitchen_qual
    garage_cars := r.garage_cars
    garage_area := r.garage_area
    fireplaces := r.fireplaces
    neighborhood := r.neighborhood }

namespace SimplePricePredictor

/-- Base price constant (api.py line 89). -/
def BASE_PRICE : ℚ := 80000

/-- The `QUALITY_WEIGHTS` dict (api.py lines 91-94) together with the
`.get(key, 1.0)` lookup used at line 112: any key outside 1-10 yields 1.0. -/
def QUALITY_WEIGHTS (q : ℤ) : ℚ :=
  if q = 1 then 0.5 else if q = 2 then 0.6 else if q = 3 then 0.7
  else if q = 4 then 0.8 else if q = 5 then 0.9 else if q = 6 then 1.0
  else if q = 7 then 1.15 else if q = 8 then 1.35 else if q = 9 then 1.55
  else if q = 10 then 1.8 else 1.0

/-- The `NEIGHBORHOOD_MULTIPLIERS` dict (api.py lines 96-106) with the
`.get(key, 1.0)` lookup used at line 126: unknown names yield 1.0. -/
def NEIGHBORHOOD_MULTIPLIERS (n : String) : ℚ :=
  if n = "StoneBr" then 1.4 else if n = "NridgHt" then 1.35
  else if n = "NoRidge" then 1.3 else if n = "Somerst" then 1.15
  else if n = "Timber" then 1.1 else if n = "Veenker" then 1.1
  else if n = "CollgCr" then 1.05 else if n = "Crawfor" then 1.05
  else if n = "ClearCr" then 1.05 else if n = "Gilbert" then 1.0
  else if n = "NWAmes" then 0.95 else if n = "SawyerW" then 0.95
  else if n = "Mitchel" then 0.9 else if n = "NAmes" then 0.85
  else if n = "NPkVill" then 0.85 else if n = "SWISU" then 0.8
  else if n = "Blueste" then 0.8 else if n = "Sawyer" then 0.8
  else if n = "OldTown" then 0.75 else if n = "Edwards" then 0.75
  else if n = "BrkSide" then 0.7 else if n = "BrDale" then 0.65
  else if n = "IDOTRR" then 0.65 else if n = "MeadowV" then 0.6
  else if n = "Blmngtn" then 1.05 else 1.0

/-- The `KITCHEN_QUAL_WEIGHTS` dict (api.py line 108) with the
`.get(key, 1.0)` lookup used at line 127. -/
def KITCHEN_QUAL_WEIGHTS (k : String) : ℚ :=
  if k = "Ex" then 1.15 else if k = "Gd" then 1.05 else if k = "TA" then 1.0
  else if k = "Fa" then 0.9 else if k = "Po" then 0.8 else 1.0

/-- The age multiplier encoded by the if/elif chain at api.py lines 121-124,
as a function of `age = 2024 - year_built`; the final `elif` falling through
leaves the price unchanged (factor 1). -/
def ageMultiplier (age : ℤ) : ℚ :=
  if age < 5 then 1.1 else if age < 15 then 1.05
  else if age > 50 then 0.85 else if age > 30 then 0.92 else 1

/-- The `price` accumulator of `SimplePricePredictor.predict` (api.py lines
110-129), translated statement by statement; the conditional in-place
multiplications at lines 121-124 become a conditional rebinding. -/
def predictPrice (features : HouseFeatures) : ℚ :=
  let price : ℚ := BASE_PRICE
  let price := price * QUALITY_WEIGHTS features.overall_quality
  let price := price + (features.gr_liv_area : ℚ) * 50
  let price := price + (features.total_bsmt_sf : ℚ) * 30
  let price := price + (features.garage_area : ℚ) * 25
  let price := price + (features.garage_cars : ℚ) * 5000
  let price := price + (features.full_bath : ℚ) * 8000
  let price := price + (features.half_bath : ℚ) * 4000
  let age : ℤ := 2024 - features.year_built
  let price :=
    if age < 5 then price * 1.1 else if age < 15 then price * 1.05
    else if age > 50 then price * 0.85 else if age > 30 then price * 0.92
    else price
  let price := price * NEIGHBORHOOD_MULTIPLIERS features.neighborhood
  let price := price * KITCHEN_QUAL_WEIGHTS features.kitchen_qual
  let price := price + (features.fireplaces : ℚ) * 5000
  let price := price + (features.lot_area : ℚ) * 2
  price

/-- Return value of `SimplePricePredictor.predict` (api.py line 131):
`(price, price * 0.88, price * 1.12)`. -/
def predict (features : HouseFeatures) : ℚ × ℚ × ℚ :=
  (predictPrice features, predictPrice features * 0.88, predictPrice features * 1.12)

end SimplePricePredictor

/-- Python's `round(x, 2)` used on every monetary output (api.py lines
245-247, 257-259, 269-271 and app.py lines 396-398), modelled with Mathlib's
`round` on hundredths. -/
def round2 (x : ℚ) : ℚ := (round (x * 100) : ℤ) / 100

/-- Response schema `PredictionResponse` (api.py lines 78-83). -/
structure PredictionResponse where
  predicted_price : ℚ
  price_range_low : ℚ
  price_range_high : ℚ
  confidence : String
  model_used : String

/-- The quality-to-confidence mapping shared verbatim by the trained branch
(api.py lines 234-242) and the heuristic branch (api.py line 266) and the
front end (app.py line 393). -/
def confidenceFromQuality (q : ℤ) : String :=
  if q ≥ 7 then "High" else if q ≥ 4 then "Medium" else "Low"

/-- The trained-model branch of `predict_price` after a successful inference
(api.py lines 233-250); `prediction` stands for the value of
`np.expm1(model.predict(input_scaled)[0])`. -/
def trainedBranch (prediction : ℚ) (features : HouseFeatures) : PredictionResponse :=
  let confidence :=
    if features.overall_quality ≥ 7 then "High"
    else if features.overall_quality ≥ 4 then "Medium" else "Low"
  let range_pct : ℚ :=
    if features.overall_quality ≥ 7 then 0.10
    else if features.overall_quality ≥ 4 then 0.12 else 0.15
  { predicted_price := round2 prediction
    price_range_low := round2 (prediction * (1 - range_pct))
    price_range_high := round2 (prediction * (1 + range_pct))
    confidence := confidence
    model_used := "Trained Linear Regression" }

/-- The `except` branch of `predict_price` (api.py lines 252-262): on any
exception in the trained path it calls the fallback predictor and returns its
rounded triple with confidence hard-coded to "Medium". -/
def exceptFallbackBranch (features : HouseFeatures) : PredictionResponse :=
  let plh := SimplePricePredictor.predict features
  { predicted_price := round2 plh.1
    price_range_low := round2 plh.2.1
    price_range_high := round2 plh.2.2
    confidence := "Medium"
    model_used := "Fallback (Simple)" }

/-- The model-not-loaded branch of `predict_price` (api.py lines 263-274):
the fallback predictor's rounded triple with confidence derived from
`overall_quality`. -/
def heuristicBranch (features : HouseFeatures) : PredictionResponse :=
  let plh := SimplePricePredictor.predict features
  let confidence :=
    if features.overall_quality ≥ 7 then "High"
    else if features.overall_quality ≥ 4 then "Medium" else "Low"
  { predicted_price := round2 plh.1
    price_range_low := round2 plh.2.1
    price_range_high := round2 plh.2.2
    confidence := confidence
    model_used := "Fallback (Run notebook to train model)" }

/-- The `/predict` endpoint `predict_price` (api.py lines 182-274).
`inference = none` models `model`/`scaler`/`feature_names` not all loaded;
`inference = some infer` models the loaded trained path, where
`infer features = none` means some step of the `try` block (feature
transform, scaling or model evaluation) raised, and `some p` means inference
succeeded with prediction `p`. -/
def predict_price (inference : Option (HouseFeatures → Option ℚ))
    (features : HouseFeatures) : PredictionResponse :=
  match inference with
  | some infer =>
    match infer features with
    | some prediction => trainedBranch prediction features
    | none => exceptFallbackBranch features
  | none => heuristicBranch features

/-- Return value of `local_predict` (app.py lines 395-407), without the
purely presentational `features_summary` string map. -/
structure LocalResult where
  predicted_price : ℚ
  price_range_low : ℚ
  price_range_high : ℚ
  confidence : String

/-- The front end's `local_predict` (app.py lines 344-399), translated
statement by statement.  Its locally re-declared coefficient dicts (app.py
lines 347-366) are identical to `SimplePricePredictor`'s and appear as local
bindings.  The dict `.get(key, default)` reads always find their key, because
a `FrontendRecord` carries every field the form collects (app.py lines
585-607). -/
def local_predict (features : FrontendRecord) : LocalResult :=
  let QUALITY_WEIGHTS : ℤ → ℚ := fun q =>
    if q = 1 then 0.5 else if q = 2 then 0.6 else if q = 3 then 0.7
    else if q = 4 then 0.8 else if q = 5 then 0.9 else if q = 6 then 1.0
    else if q = 7 then 1.15 else if q = 8 then 1.35 else if q = 9 then 1.55
    else if q = 10 then 1.8 else 1.0
  let NEIGHBORHOOD_MULTIPLIERS : String → ℚ := fun n =>
    if n = "StoneBr" then 1.4 else if n = "NridgHt" then 1.35
    else if n = "NoRidge" then 1.3 else if n = "Somerst" then 1.15
    else if n = "Timber" then 1.1 else if n = "Veenker" then 1.1
    else if n = "CollgCr" then 1.05 else if n = "Crawfor" then 1.05
    else if n = "ClearCr" then 1.05 else if n = "Gilbert" then 1.0
    else if n = "NWAmes" then 0.95 else if n = "SawyerW" then 0.95
    else if n = "Mitchel" then 0.9 else if n = "NAmes" then 0.85
    else if n = "NPkVill" then 0.85 else if n = "SWISU" then 0.8
    else if n = "Blueste" then 0.8 else if n = "Sawyer" then 0.8
    else if n = "OldTown" then 0.75 else if n = "Edwards" then 0.75
    else if n = "BrkSide" then 0.7 else if n = "BrDale" then 0.65
    else if n = "IDOTRR" then 0.65 else if n = "MeadowV" then 0.6
    else if n = "Blmngtn" then 1.05 else 1.0
  let KITCHEN_QUAL_WEIGHTS : String → ℚ := fun k =>
    if k = "Ex" then 1.15 else if k = "Gd" then 1.05 else if k = "TA" then 1.0
    else if k = "Fa" then 0.9 else if k = "Po" then 0.8 else 1.0
  let price : ℚ := 80000
  let quality : ℤ := features.overall_quality
  let price := price * QUALITY_WEIGHTS quality
  let price := price + (features.gr_liv_area : ℚ) * 50
  let price := price + (features.total_bsmt_sf : ℚ) * 30
  let price := price + (features.garage_area : ℚ) * 25
  let price := price + (features.garage_cars : ℚ) * 5000
  let price := price + (features.full_bath : ℚ) * 8000
  let price := price + (features.half_bath : ℚ) * 4000
  let age : ℤ := 2024 - features.year_built
  let price :=
    if age < 5 then price * 1.1 else if age < 15 then price * 1.05
    else if age > 50 then price * 0.85 else if age > 30 then price * 0.92
    else price
  let neighborhood := features.neighborhood
  let price := price * NEIGHBORHOOD_MULTIPLIERS neighborhood
  let kitchen := features.kitchen_qual
  let price := price * KITCHEN_QUAL_WEIGHTS kitchen
  let price := price + (features.fireplaces : ℚ) * 5000
  let price := price + (features.lot_area : ℚ) * 2
  let confidence :=
    if quality ≥ 7 then "High" else if quality ≥ 4 then "Medium" else "Low"
  { predicted_price := round2 price
    price_range_low := round2 (price * 0.88)
    price_range_high := round2 (price * 1.12)
    confidence := confidence }

/-- The worked example record of the specification (also the JSON example of
api.py lines 56-74): quality 7, built 2005, remodelled 2010, lot 8500, living
1800, basement 1000, first floor 1000, second floor 800, 3 bedrooms, 2 full
and 1 half bath, kitchen Gd, 2-car 500 sq ft garage, 1 fireplace, CollgCr. -/
def specExampleFeatures : HouseFeatures :=
  { overall_quality := 7
    overall_condition := 5
    year_built := 2005
    year_remod := 2010
    lot_area := 8500
    gr_liv_area := 1800
    total_bsmt_sf := 1000
    first_flr_sf := 1000
    second_flr_sf := 800
    bedrooms := 3
    full_bath := 2
    half_bath := 1
    kitchen_qual := "Gd"
    garage_cars := 2
    garage_area := 500
    fireplaces := 1
    neighborhood := "CollgCr" }

/-- The same example as a full front-end request, with the form's defaults
for the fields the API schema drops (pool_area 0, attached garage, single
family, one story). -/
def specExampleRequest : FrontendRecord :=
  { overall_quality := 7
    overall_condition := 5
    year_built := 2005
    year_remod := 2010
    lot_area := 8500
    gr_liv_area := 1800
    total_bsmt_sf := 1000
    first_flr_sf := 1000
    second_flr_sf := 800
    bedrooms := 3
    full_bath := 2
    half_bath := 1
    kitchen_qual := "Gd"
    garage_cars := 2
    garage_area := 500
    garage_type := "Attchd"
    fireplaces := 1
    pool_area := 0
    neighborhood := "CollgCr"
    bldg_type := "1Fam"
    house_style := "1Story" }

/-- Closed form of the accumulator of `SimplePricePredictor.predict`: the
sequential updates of api.py lines 111-129 compose to a base-plus-areas sum,
scaled by the age, neighborhood and kitchen multipliers, plus the fireplace
and lot contributions added after all multipliers. -/
lemma SimplePricePredictor.predictPrice_eq (f : HouseFeatures) :
    SimplePricePredictor.predictPrice f =
      (SimplePricePredictor.BASE_PRICE
          * SimplePricePredictor.QUALITY_WEIGHTS f.overall_quality
        + (f.gr_liv_area : ℚ) * 50 + (f.total_bsmt_sf : ℚ) * 30
        + (f.garage_area : ℚ) * 25 + (f.garage_cars : ℚ) * 5000
        + (f.full_bath : ℚ) * 8000 + (f.half_bath : ℚ) * 4000)
        * SimplePricePredictor.ageMultiplier (2024 - f.year_built)
        * SimplePricePredictor.NEIGHBORHOOD_MULTIPLIERS f.neighborhood
        * SimplePricePredictor.KITCHEN_QUAL_WEIGHTS f.kitchen_qual
      + (f.fireplaces : ℚ) * 5000 + (f.lot_area : ℚ) * 2 := by
  simp only [SimplePricePredictor.predictPrice, SimplePricePredictor.ageMultiplier]
  split_ifs <;> ring

/-- Every value of the quality table, and the 1.0 default, is at least 1/2. -/
lemma QUALITY_WEIGHTS_lb (q : ℤ) :
    (1/2 : ℚ) ≤ SimplePricePredictor.QUALITY_WEIGHTS q := by
  unfold SimplePricePredictor.QUALITY_WEIGHTS
  split_ifs <;> norm_num

/-- Bounding an if-expression from below by bounding both branches. -/
lemma le_ite_of (c : Prop) [Decidable c] {v a b : ℚ} (h1 : v ≤ a) (h2 : v ≤ b) :
    v ≤ if c then a else b := by
  split <;> assumption

/-- Every value of the neighborhood table, and the 1.0 default, is at least 3/5. -/
lemma NEIGHBORHOOD_MULTIPLIERS_lb (n : String) :
    (3/5 : ℚ) ≤ SimplePricePredictor.NEIGHBORHOOD_MULTIPLIERS n := by
  unfold SimplePricePredictor.NEIGHBORHOOD_MULTIPLIERS
  exact le_ite_of _ (by norm_num) <| le_ite_of _ (by norm_num) <|
    le_ite_of _ (by norm_num) <| le_ite_of _ (by norm_num) <|
    le_ite_of _ (by norm_num) <| le_ite_of _ (by norm_num) <|
    le_ite_of _ (by norm_num) <| le_ite_of _ (by norm_num) <|
    le_ite_of _ (by norm_num) <| le_ite_of _ (by norm_num) <|
    le_ite_of _ (by norm_num) <| le_ite_of _ (by norm_num) <|
    le_ite_of _ (by norm_num) <| le_ite_of _ (by norm_num) <|
    le_ite_of _ (by norm_num) <| le_ite_of _ (by norm_num) <|
    le_ite_of _ (by norm_num) <| le_ite_of _ (by norm_num) <|
    le_ite_of _ (by norm_num) <| le_ite_of _ (by norm_num) <|
    le_ite_of _ (by norm_num) <| le_ite_of _ (by norm_num) <|
    le_ite_of _ (by norm_num) <| le_ite_of _ (by norm_num) <|
    le_ite_of _ (by norm_num) (by norm_num)

/-- Every value of the kitchen table, and the 1.0 default, is at least 4/5. -/
lemma KITCHEN_QUAL_WEIGHTS_lb (k : String) :
    (4/5 : ℚ) ≤ SimplePricePredictor.KITCHEN_QUAL_WEIGHTS k := by
  unfold SimplePricePredictor.KITCHEN_QUAL_WEIGHTS
  split_ifs <;> norm_num

/-- Every age-band multiplier is at least 17/20. -/
lemma ageMultiplier_lb (age : ℤ) :
    (17/20 : ℚ) ≤ SimplePricePredictor.ageMultiplier age := by
  unfold SimplePricePredictor.ageMultiplier
  split_ifs <;> norm_num

/-- Rounding to hundredths moves a rational by at most half a cent. -/
lemma round2_abs (x : ℚ) : |round2 x - x| ≤ 1 / 200 := by
  have h := abs_sub_round (x * 100)
  unfold round2
  rw [show (round (x * 100) : ℚ) / 100 - x = ((round (x * 100) : ℚ) - x * 100) / 100 by
    ring]
  rw [abs_div, abs_of_pos (show (0:ℚ) < 100 by norm_num)]
  rw [abs_sub_comm] at h
  linarith

/-- For every valid record the pre-rounding heuristic price is at least
16320 = (80000 * (1/2)) * (17/20) * (3/5) * (4/5). -/
lemma predictPrice_lower (f : HouseFeatures) (h : f.Valid) :
    (16320 : ℚ) ≤ SimplePricePredictor.predictPrice f := by
  obtain ⟨hq1, hq10, hc1, hc10, hb1, hb2, hr1, hr2, hlot, hliv, hbsmt, hfst, hsnd,
    hbed1, hbed2, hfb1, hfb2, hhb1, hhb2, hgc1, hgc2, hga, hfp1, hfp2⟩ := h
  have hqw := QUALITY_WEIGHTS_lb f.overall_quality
  have ham := ageMultiplier_lb (2024 - f.year_built)
  have hnm := NEIGHBORHOOD_MULTIPLIERS_lb f.neighborhood
  have hkq := KITCHEN_QUAL_WEIGHTS_lb f.kitchen_qual
  have cliv : (0:ℚ) ≤ (f.gr_liv_area : ℚ) := by exact_mod_cast hliv
  have cbsmt : (0:ℚ) ≤ (f.total_bsmt_sf : ℚ) := by exact_mod_cast hbsmt
  have cga : (0:ℚ) ≤ (f.garage_area : ℚ) := by exact_mod_cast hga
  have cgc : (0:ℚ) ≤ (f.garage_cars : ℚ) := by exact_mod_cast hgc1
  have cfb : (0:ℚ) ≤ (f.full_bath : ℚ) := by exact_mod_cast hfb1
  have chb : (0:ℚ) ≤ (f.half_bath : ℚ) := by exact_mod_cast hhb1
  have cfp : (0:ℚ) ≤ (f.fireplaces : ℚ) := by exact_mod_cast hfp1
  have clot : (0:ℚ) ≤ (f.lot_area : ℚ) := by exact_mod_cast hlot
  rw [SimplePricePredictor.predictPrice_eq]
  set S := SimplePricePredictor.BASE_PRICE
      * SimplePricePredictor.QUALITY_WEIGHTS f.overall_quality
    + (f.gr_liv_area : ℚ) * 50 + (f.total_bsmt_sf : ℚ) * 30
    + (f.garage_area : ℚ) * 25 + (f.garage_cars : ℚ) * 5000
    + (f.full_bath : ℚ) * 8000 + (f.half_bath : ℚ) * 4000 with hSdef
  clear_value S
  have hS : (40000 : ℚ) ≤ S := by
    rw [hSdef, show SimplePricePredictor.BASE_PRICE = 80000 from rfl]
    linarith
  have h1 : (34000 : ℚ) ≤ S * SimplePricePredictor.ageMultiplier (2024 - f.year_built) := by
    have := mul_le_mul hS ham (by norm_num : (0:ℚ) ≤ 17/20) (by linarith : (0:ℚ) ≤ S)
    linarith
  have h2 : (20400 : ℚ) ≤ S * SimplePricePredictor.ageMultiplier (2024 - f.year_built)
      * SimplePricePredictor.NEIGHBORHOOD_MULTIPLIERS f.neighborhood := by
    have := mul_le_mul h1 hnm (by norm_num : (0:ℚ) ≤ 3/5) (by linarith)
    linarith
  have h3 : (16320 : ℚ) ≤ S * SimplePricePredictor.ageMultiplier (2024 - f.year_built)
      * SimplePricePredictor.NEIGHBORHOOD_MULTIPLIERS f.neighborhood
      * SimplePricePredictor.KITCHEN_QUAL_WEIGHTS f.kitchen_qual := by
    have := mul_le_mul h2 hkq (by norm_num : (0:ℚ) ≤ 4/5) (by linarith)
    linarith
  linarith

/-- C7: for every valid FeatureRecord the heuristic branch of the `/predict`
endpoint returns a strictly positive rounded `predicted_price`, strictly
between the rounded `price_range_low` and `price_range_high` (the pre-rounding
band is ±12% of a price that is at least 16320, so rounding to cents cannot
collapse the strict inequalities; in this exact-rational model every value is
finite by construction). -/
theorem claim_C7_bounds (f : HouseFeatures) (h : f.Valid) :
    0 < (heuristicBranch f).predicted_price ∧
    (heuristicBranch f).price_range_low < (heuristicBranch f).predicted_price ∧
    (heuristicBranch f).predicted_price < (heuristicBranch f).price_range_high := by
  have key := predictPrice_lower f h
  have hmid := round2_abs (SimplePricePredictor.predictPrice f)
  have hlo := round2_abs (SimplePricePredictor.predictPrice f * 0.88)
  have hhi := round2_abs (SimplePricePredictor.predictPrice f * 1.12)
  rw [abs_le] at hmid hlo hhi
  have e1 : (heuristicBranch f).predicted_price
      = round2 (SimplePricePredictor.predictPrice f) := rfl
  have e2 : (heuristicBranch f).price_range_low
      = round2 (SimplePricePredictor.predictPrice f * 0.88) := rfl
  have e3 : (heuristicBranch f).price_range_high
      = round2 (SimplePricePredictor.predictPrice f * 1.12) := rfl
  rw [e1, e2, e3]
  obtain ⟨hmid1, hmid2⟩ := hmid
  obtain ⟨hlo1, hlo2⟩ := hlo
  obtain ⟨hhi1, hhi2⟩ := hhi
  refine ⟨by linarith, by linarith, by linarith⟩

/-- Witness for C7 at the specification's example record. -/
theorem claim_C7_bounds_witness :
    specExampleFeatures.Valid ∧
    (0 < (heuristicBranch specExampleFeatures).predicted_price ∧
     (heuristicBranch specExampleFeatures).price_range_low
       < (heuristicBranch specExampleFeatures).predicted_price ∧
     (heuristicBranch specExampleFeatures).predicted_price
       < (heuristicBranch specExampleFeatures).price_range_high) :=
  ⟨by decide, claim_C7_bounds specExampleFeatures (by decide)⟩

/-- C8: the age multiplier of the heuristic, as a function of
`age = 2024 - year_built`, is 1.1 for age < 5 (including negative ages),
1.05 for 5 ≤ age < 15, 0.85 for age > 50, 0.92 for 30 < age ≤ 50, and 1
(no change) for 15 ≤ age ≤ 30; the five bands partition ℤ. -/
theorem claim_C8_age_bands (age : ℤ) :
    (age < 5 → SimplePricePredictor.ageMultiplier age = 1.1) ∧
    (5 ≤ age → age < 15 → SimplePricePredictor.ageMultiplier age = 1.05) ∧
    (50 < age → SimplePricePredictor.ageMultiplier age = 0.85) ∧
    (30 < age → age ≤ 50 → SimplePricePredictor.ageMultiplier age = 0.92) ∧
    (15 ≤ age → age ≤ 30 → SimplePricePredictor.ageMultiplier age = 1) := by
  unfold SimplePricePredictor.ageMultiplier
  refine ⟨?_, ?_, ?_, ?_, ?_⟩ <;> intros <;> split_ifs <;> first | rfl | omega

/-- Witness for C8 in the age > 50 band. -/
theorem claim_C8_age_bands_witness :
    SimplePricePredictor.ageMultiplier 60 = 0.85 :=
  (claim_C8_age_bands 60).2.2.1 (by norm_num)

/-- Pre-rounding heuristic price of the example record: 80000 * 1.15 followed
by the area and count contributions gives 254500, the age band 15-30 leaves it
unchanged, CollgCr (1.05) and Gd (1.05) scale it to 280586.25, and the
fireplace and lot contributions bring it to 302586.25. -/
lemma specExample_price :
    SimplePricePredictor.predictPrice specExampleFeatures = 302586.25 := by
  rw [SimplePricePredictor.predictPrice_eq]
  norm_num [specExampleFeatures,
    show SimplePricePredictor.BASE_PRICE = 80000 from rfl,
    show SimplePricePredictor.QUALITY_WEIGHTS 7 = 1.15 from rfl,
    show SimplePricePredictor.ageMultiplier 19 = 1 from rfl,
    show SimplePricePredictor.NEIGHBORHOOD_MULTIPLIERS "CollgCr" = 1.05 from rfl,
    show SimplePricePredictor.KITCHEN_QUAL_WEIGHTS "Gd" = 1.05 from rfl]

/-- The rounded point estimate returned for the example record. -/
lemma specExample_rounded_price :
    (heuristicBranch specExampleFeatures).predicted_price = 302586.25 := by
  show round2 (SimplePricePredictor.predictPrice specExampleFeatures) = 302586.25
  rw [specExample_price]
  unfold round2
  norm_num [round_eq]

/-- The rounded low bound returned for the example record. -/
lemma specExample_rounded_low :
    (heuristicBranch specExampleFeatures).price_range_low = 266275.9 := by
  show round2 (SimplePricePredictor.predictPrice specExampleFeatures * 0.88) = 266275.9
  rw [specExample_price]
  unfold round2
  norm_num [round_eq]

/-- The rounded high bound returned for the example record. -/
lemma specExample_rounded_high :
    (heuristicBranch specExampleFeatures).price_range_high = 338896.6 := by
  show round2 (SimplePricePredictor.predictPrice specExampleFeatures * 1.12) = 338896.6
  rw [specExample_price]
  unfold round2
  norm_num [round_eq]

/-- C1 (amended): on the spec's example record the heuristic branch returns
predicted_price = 302586.25, price_range_low = 266275.9 and
price_range_high = 338896.6 exactly (the code has no bedroom step, so the
spec's expected 305893.75 / 269186.5 / 342601.0 are not attained). -/
theorem claim_C1_example_values :
    (heuristicBranch specExampleFeatures).predicted_price = 302586.25 ∧
    (heuristicBranch specExampleFeatures).price_range_low = 266275.9 ∧
    (heuristicBranch specExampleFeatures).price_range_high = 338896.6 :=
  ⟨specExample_rounded_price, specExample_rounded_low, specExample_rounded_high⟩

/-- C1 counterexample: on the spec's example record the rounded
predicted_price is not within 0.01 of the claimed 305893.75 (it is 302586.25,
which is 3307.5 below). -/
theorem claim_C1_counterexample :
    ¬ |(heuristicBranch specExampleFeatures).predicted_price - 305893.75| ≤ 0.01 := by
  rw [specExample_rounded_price]
  intro hcontra
  rw [abs_le] at hcontra
  obtain ⟨h1, h2⟩ := hcontra
  norm_num at h1

/-- C2 (amended): `SimplePricePredictor.predict` never reads `bedrooms`; the
heuristic price is invariant under any change of the bedrooms field, so in
particular 3 bedrooms yield exactly the same price as 2 bedrooms. -/
theorem claim_C2_no_bedroom_step (f : HouseFeatures) (b : ℤ) :
    SimplePricePredictor.predictPrice { f with bedrooms := b }
      = SimplePricePredictor.predictPrice f := rfl

/-- C2 counterexample: on the example record, 2 bedrooms and 3 bedrooms give
identical (positive) prices, contradicting the claimed `(bedrooms - 2) * 3000`
increment for `bedrooms >= 3`. -/
theorem claim_C2_counterexample :
    SimplePricePredictor.predictPrice { specExampleFeatures with bedrooms := 2 }
      = SimplePricePredictor.predictPrice specExampleFeatures ∧
    (0 : ℚ) < SimplePricePredictor.predictPrice specExampleFeatures := by
  refine ⟨rfl, ?_⟩
  rw [specExample_price]
  norm_num

/-- C3 (amended): `SimplePricePredictor.predict` never reads `year_remod`;
there is no remodel-recency bonus and the heuristic price is invariant under
any change of the year_remod field. -/
theorem claim_C3_no_remodel_bonus (f : HouseFeatures) (y : ℤ) :
    SimplePricePredictor.predictPrice { f with year_remod := y }
      = SimplePricePredictor.predictPrice f := rfl

/-- C3 counterexample: a record remodelled in 2023 (2024 - 2023 < 5) gets
exactly the same positive price as the same record remodelled in 2000,
contradicting the claimed 1.05 multiplier for recent remodels. -/
theorem claim_C3_counterexample :
    SimplePricePredictor.predictPrice { specExampleFeatures with year_remod := 2023 }
      = SimplePricePredictor.predictPrice { specExampleFeatures with year_remod := 2000 } ∧
    (0 : ℚ) < SimplePricePredictor.predictPrice
        { specExampleFeatures with year_remod := 2000 } := by
  refine ⟨rfl, ?_⟩
  show (0 : ℚ) < SimplePricePredictor.predictPrice specExampleFeatures
  rw [specExample_price]
  norm_num

/-- C4 (amended): `pool_area` is not a field of the API schema; it is
discarded at ingestion, so the heuristic output is invariant under any change
of the front-end's pool_area value and no pool premium is ever added. -/
theorem claim_C4_no_pool_step (r : FrontendRecord) (p : ℤ) :
    heuristicBranch (FrontendRecord.toHouseFeatures { r with pool_area := p })
      = heuristicBranch r.toHouseFeatures := rfl

/-- C4 counterexample: the example request with pool_area = 100 prices
exactly as with pool_area = 0, not 15000 + 100 * 20 higher as claimed. -/
theorem claim_C4_counterexample :
    SimplePricePredictor.predictPrice
        (FrontendRecord.toHouseFeatures { specExampleRequest with pool_area := 100 })
      = SimplePricePredictor.predictPrice specExampleRequest.toHouseFeatures ∧
    SimplePricePredictor.predictPrice
        (FrontendRecord.toHouseFeatures { specExampleRequest with pool_area := 100 })
      ≠ SimplePricePredictor.predictPrice specExampleRequest.toHouseFeatures
          + (15000 + 100 * 20) := by
  refine ⟨rfl, ?_⟩
  intro hcontra
  have h2 : SimplePricePredictor.predictPrice specExampleRequest.toHouseFeatures
      = SimplePricePredictor.predictPrice specExampleRequest.toHouseFeatures
          + (15000 + 100 * 20) := hcontra
  have h1 : SimplePricePredictor.predictPrice specExampleRequest.toHouseFeatures
      = SimplePricePredictor.predictPrice specExampleFeatures := rfl
  rw [h1, specExample_price] at h2
  norm_num at h2

/-- C5 (amended): whenever the trained path raises (modelled by the inference
returning `none`), `predict_price` catches the exception and returns exactly
the heuristic's rounded price triple — but its confidence is hard-coded to
"Medium" (api.py line 260) instead of the heuristic branch's quality-derived
label, so the full outputs coincide only when the quality label is Medium. -/
theorem claim_C5_fallback (infer : HouseFeatures → Option ℚ) (f : HouseFeatures)
    (h : infer f = none) :
    (predict_price (some infer) f).predicted_price
        = (predict_price none f).predicted_price ∧
    (predict_price (some infer) f).price_range_low
        = (predict_price none f).price_range_low ∧
    (predict_price (some infer) f).price_range_high
        = (predict_price none f).price_range_high ∧
    (predict_price (some infer) f).confidence = "Medium" := by
  have hres : predict_price (some infer) f = exceptFallbackBranch f := by
    simp only [predict_price, h]
  rw [hres]
  exact ⟨rfl, rfl, rfl, rfl⟩

/-- Witness for C5 on the example record with an always-raising inference. -/
theorem claim_C5_fallback_witness :
    (predict_price (some (fun _ => none)) specExampleFeatures).predicted_price
        = (predict_price none specExampleFeatures).predicted_price ∧
    (predict_price (some (fun _ => none)) specExampleFeatures).price_range_low
        = (predict_price none specExampleFeatures).price_range_low ∧
    (predict_price (some (fun _ => none)) specExampleFeatures).price_range_high
        = (predict_price none specExampleFeatures).price_range_high ∧
    (predict_price (some (fun _ => none)) specExampleFeatures).confidence = "Medium" :=
  claim_C5_fallback (fun _ => none) specExampleFeatures rfl

/-- C5 counterexample: on the quality-7 example record the exception-fallback
path returns confidence "Medium" while the direct heuristic branch returns
"High", so the two outputs are not the same. -/
theorem claim_C5_counterexample :
    (predict_price (some (fun _ => none)) specExampleFeatures).confidence = "Medium" ∧
    (predict_price none specExampleFeatures).confidence = "High" ∧
    ("Medium" : String) ≠ "High" :=
  ⟨rfl, rfl, by decide⟩

/-- C6 (amended): the confidence label is `confidenceFromQuality` (High for
quality ≥ 7, Medium for 4-6, Low for ≤ 3) on the heuristic branch and on the
trained-success branch, but the exception-fallback branch always returns
"Medium" regardless of quality. -/
theorem claim_C6_confidence (infer : HouseFeatures → Option ℚ) (f : HouseFeatures)
    (p : ℚ) :
    ((predict_price none f).confidence = confidenceFromQuality f.overall_quality) ∧
    (infer f = some p → (predict_price (some infer) f).confidence
        = confidenceFromQuality f.overall_quality) ∧
    (infer f = none → (predict_price (some infer) f).confidence = "Medium") ∧
    (7 ≤ f.overall_quality → confidenceFromQuality f.overall_quality = "High") ∧
    (4 ≤ f.overall_quality → f.overall_quality ≤ 6
        → confidenceFromQuality f.overall_quality = "Medium") ∧
    (f.overall_quality ≤ 3 → confidenceFromQuality f.overall_quality = "Low") := by
  refine ⟨rfl, ?_, ?_, ?_, ?_, ?_⟩
  · intro h
    have hres : predict_price (some infer) f = trainedBranch p f := by
      simp only [predict_price, h]
    rw [hres]
    rfl
  · intro h
    have hres : predict_price (some infer) f = exceptFallbackBranch f := by
      simp only [predict_price, h]
    rw [hres]
    rfl
  · intro h
    unfold confidenceFromQuality
    rw [if_pos (show f.overall_quality ≥ 7 by omega)]
  · intro h1 h2
    unfold confidenceFromQuality
    rw [if_neg (show ¬ f.overall_quality ≥ 7 by omega),
      if_pos (show f.overall_quality ≥ 4 by omega)]
  · intro h
    unfold confidenceFromQuality
    rw [if_neg (show ¬ f.overall_quality ≥ 7 by omega),
      if_neg (show ¬ f.overall_quality ≥ 4 by omega)]

/-- Witness for C6 on a quality-8 record along the exception-fallback path. -/
theorem claim_C6_confidence_witness :
    (predict_price (some (fun _ => none))
        { specExampleFeatures with overall_quality := 8 }).confidence = "Medium" :=
  (claim_C6_confidence (fun _ => none)
    { specExampleFeatures with overall_quality := 8 } 0).2.2.1 rfl

/-- C6 counterexample: a record with overall_quality = 8 (in the claimed
"High" band 7..10) receives confidence "Medium", not "High", on the
exception-fallback path, so confidence is not determined by quality alone
across all paths. -/
theorem claim_C6_counterexample :
    ({ specExampleFeatures with overall_quality := 8 } : HouseFeatures).overall_quality
        = 8 ∧
    (predict_price (some (fun _ => none))
        { specExampleFeatures with overall_quality := 8 }).confidence ≠ "High" :=
  ⟨rfl, by decide⟩

/-- C9 (amended): the fireplace contribution `fireplaces * 5000` is added
after the age, neighborhood and kitchen multipliers (api.py line 128, right
before `lot_area * 2`), so it is a flat amount not scaled by any multiplier:
each fireplace changes the pre-rounding price by exactly 5000. -/
theorem claim_C9_fireplace_flat (f : HouseFeatures) (k : ℤ) :
    SimplePricePredictor.predictPrice { f with fireplaces := k }
      = SimplePricePredictor.predictPrice { f with fireplaces := 0 } + (k : ℚ) * 5000 := by
  rw [SimplePricePredictor.predictPrice_eq, SimplePricePredictor.predictPrice_eq]
  dsimp only
  push_cast
  ring

/-- The example record relocated to StoneBr with an Ex kitchen, so that the
neighborhood and kitchen multipliers are both greater than 1. -/
def fireplaceProbe : HouseFeatures :=
  { specExampleFeatures with neighborhood := "StoneBr", kitchen_qual := "Ex" }

/-- C9 counterexample: with the StoneBr (1.4) and Ex (1.15) multipliers in
force, adding one fireplace changes the price by exactly 5000, not by
5000 * 1.4 * 1.15 = 8050 as it would if the fireplace amount were scaled by
the subsequent multipliers. -/
theorem claim_C9_counterexample :
    SimplePricePredictor.predictPrice { fireplaceProbe with fireplaces := 1 }
        - SimplePricePredictor.predictPrice { fireplaceProbe with fireplaces := 0 }
      = 5000 ∧
    (5000 : ℚ) ≠ 5000 * (SimplePricePredictor.NEIGHBORHOOD_MULTIPLIERS "StoneBr"
        * SimplePricePredictor.KITCHEN_QUAL_WEIGHTS "Ex") := by
  constructor
  · rw [SimplePricePredictor.predictPrice_eq, SimplePricePredictor.predictPrice_eq]
    dsimp only
    push_cast
    ring
  · rw [show SimplePricePredictor.NEIGHBORHOOD_MULTIPLIERS "StoneBr" = 1.4 from rfl,
      show SimplePricePredictor.KITCHEN_QUAL_WEIGHTS "Ex" = 1.15 from rfl]
    norm_num

/-- C10: for every front-end record (which always supplies every key the
local predictor reads), `local_predict` returns exactly the same rounded
predicted_price, price_range_low, price_range_high and confidence label as
the API's heuristic branch applied to the ingested record. -/
theorem claim_C10_local_matches_api (r : FrontendRecord) :
    (local_predict r).predicted_price
        = (heuristicBranch r.toHouseFeatures).predicted_price ∧
    (local_predict r).price_range_low
        = (heuristicBranch r.toHouseFeatures).price_range_low ∧
    (local_predict r).price_range_high
        = (heuristicBranch r.toHouseFeatures).price_range_high ∧
    (local_predict r).confidence = (heuristicBranch r.toHouseFeatures).confidence :=
  ⟨rfl, rfl, rfl, rfl⟩
